import Mathlib

/-!
Verification of the soft-error wrapper library.

The library executes a caller-supplied handler and normalizes thrown
exceptions or rejected promises into return values.  We embed its five
source files shallowly:

* JavaScript values, as far as the promise detector `isPromise` inspects
  them (truthiness, `typeof`, property lookup);
* synchronous execution outcomes (`SyncOutcome`: normal return or throw);
* settled promise outcomes (`PromiseOutcome`: resolved or rejected) — the
  event loop is single threaded and each wrapper awaits a single promise,
  so a promise is represented by its settled outcome;
* the wrappers themselves (`trySync`, `catchSync`, `tryAsync`,
  `catchAsync`, the dual-mode `_try`/`_catch`, the part_001
  `tryCatchSync`, the part_002 `tryCatch`, and the run-time selectors).

Handler return values are modelled as `Option β`: `none` is the
JavaScript `null`/`undefined` that a handler may legitimately return, and
is also the null sentinel the wrappers produce on failure — in JavaScript
these are the very same value, which matters for the invariant of the
structured result.  Thrown errors have abstract type `ε`; the source
constrains them to `E extends Error`, so a caught-and-stored error is an
object and hence truthy, which justifies reading the `if (error)` and
`ok: !error` truthiness tests as `Option.isSome` / `Option.isNone` tests.
Closure mutation (the internal error-capturing callbacks of the
structured wrappers) is modelled by explicit state passing.
-/

namespace SoftError

/-! ### JavaScript value model for the promise detector -/

/-- A JavaScript value, to the depth `isPromise` inspects it: primitives,
`null`/`undefined`, objects with named properties, and functions (which,
as in JavaScript, may also carry properties). -/
inductive JSVal : Type
  | jsUndefined
  | jsNull
  | boolean (b : Bool)
  | number (n : Int)
  | str (s : String)
  | obj (props : List (String × JSVal))
  | fn (props : List (String × JSVal))

/-- First property with the given name, or `undefined` when absent. -/
def plook : List (String × JSVal) → String → JSVal
  | [], _ => .jsUndefined
  | (k, v) :: rest, key => if k = key then v else plook rest key

/-- JavaScript truthiness (`!!v`).  Numbers are modelled as integers, so
the only falsy number is `0`. -/
def truthy : JSVal → Bool
  | .jsUndefined => false
  | .jsNull => false
  | .boolean b => b
  | .number n => n != 0
  | .str s => s != ""
  | .obj _ => true
  | .fn _ => true

/-- The JavaScript `typeof` operator (note `typeof null === "object"`). -/
def typeofV : JSVal → String
  | .jsUndefined => "undefined"
  | .jsNull => "object"
  | .boolean _ => "boolean"
  | .number _ => "number"
  | .str _ => "string"
  | .obj _ => "object"
  | .fn _ => "function"

/-- Property access `v[key]`; primitives expose no own properties here and
yield `undefined`. -/
def getProp : JSVal → String → JSVal
  | .obj l, key => plook l key
  | .fn l, key => plook l key
  | _, _ => .jsUndefined

/-- `isPromise` from src/index.ts lines 1-7:
`!!obj && (typeof obj === "object" || typeof obj === "function") &&
typeof obj.then === "function"`.  Total by construction, as the source is
(its conjunction short-circuits before any property access on a nullish
value, and `typeof` never throws). -/
def isPromise (v : JSVal) : Bool :=
  truthy v &&
    (typeofV v == "object" || typeofV v == "function") &&
    typeofV (getProp v "then") == "function"

/-! ### Execution outcome model -/

/-- Outcome of running a synchronous piece of code: a normal return or a
thrown error. -/
inductive SyncOutcome (ε α : Type) : Type
  | ret (v : α)
  | thrown (e : ε)
deriving Repr, DecidableEq

/-- Settled outcome of a promise. -/
inductive PromiseOutcome (ε α : Type) : Type
  | resolved (v : α)
  | rejected (e : ε)
deriving Repr, DecidableEq

/-- What a dual-mode handler returns when it returns normally: either a
value not detected as a promise by `isPromise` (constructor `plain`) or a
promise (constructor `prom`).  The `isPromise` branch of the dual-mode
wrappers is modelled by this sum. -/
inductive HRet (ε β : Type) : Type
  | plain (v : Option β)
  | prom (p : PromiseOutcome ε (Option β))
deriving Repr, DecidableEq

/-- Behaviour of one invocation of an asynchronous error callback
(`ErrorAsyncHandler`): return `undefined`, return a promise, or throw
synchronously. -/
inductive CbOut (ε : Type) : Type
  | retUnit
  | retProm (p : PromiseOutcome ε Unit)
  | thrown (e : ε)
deriving Repr, DecidableEq

/-- The `CatchResult` / `TryCatchResult` record `{value, error, ok}`. -/
structure CatchResult (ε β : Type) : Type where
  value : Option β
  error : Option ε
  ok : Bool
deriving Repr, DecidableEq

/-- Result of the dual-mode nullable wrapper: an immediately available
value (`now`) or a promise (`later`). -/
inductive TryResult (ε β : Type) : Type
  | now (v : Option β)
  | later (p : PromiseOutcome ε (Option β))
deriving Repr, DecidableEq

/-- Result of the dual-mode structured wrapper: an immediately available
record (`now`) or a promise of one (`later`). -/
inductive CatchOut (ε β : Type) : Type
  | now (r : CatchResult ε β)
  | later (p : PromiseOutcome ε (CatchResult ε β))
deriving Repr, DecidableEq

/-- An `FnAsyncHandler` argument: either a promise itself, or a function
whose invocation may throw or return a value or a promise. -/
inductive AsyncHandler (ε β : Type) : Type
  | prom (p : PromiseOutcome ε (Option β))
  | func (r : SyncOutcome ε (HRet ε β))
deriving Repr, DecidableEq

/-! ### The synchronous nullable wrapper `trySync` (src/index.ts 142-153) -/

/-- `trySync(fn, errorHandler?)`:
`try { return fn() } catch (err) { errorHandler?.(err); return null }`.
The callback may itself throw, in which case its error escapes the
wrapper (it is raised inside the `catch` block). -/
def trySync {ε β : Type} (fn : SyncOutcome ε (Option β))
    (errorHandler : Option (ε → SyncOutcome ε Unit)) :
    SyncOutcome ε (Option β) :=
  match fn with
  | .ret v => .ret v
  | .thrown e =>
    match errorHandler with
    | none => .ret none
    | some cb =>
      match cb e with
      | .ret _ => .ret none
      | .thrown e2 => .thrown e2

/-- The arguments `trySync` passes to its error callback, read off the
same control flow: the callback is reached exactly once, with the thrown
error, and only when the handler throws and a callback is present. -/
def trySyncCalls {ε β : Type} (fn : SyncOutcome ε (Option β))
    (errorHandler : Option (ε → SyncOutcome ε Unit)) : List ε :=
  match fn with
  | .ret _ => []
  | .thrown e =>
    match errorHandler with
    | none => []
    | some _ => [e]

/-- `trySync` with a state-passing error callback: the same control flow
as `trySync`, with the closure mutation a callback may perform made
explicit as a state `σ` threaded through the single callback invocation.
Used to embed `catchSync`, whose internal callback writes to a captured
local variable. -/
def trySyncSt {ε β σ : Type} (fn : SyncOutcome ε (Option β))
    (cb : σ → ε → σ × SyncOutcome ε Unit) (s : σ) :
    SyncOutcome ε (Option β) × σ :=
  match fn with
  | .ret v => (.ret v, s)
  | .thrown e =>
    match cb s e with
    | (s2, .ret _) => (.ret none, s2)
    | (s2, .thrown e2) => (.thrown e2, s2)

/-! ### The synchronous structured wrapper `catchSync` (src/index.ts 206-217) -/

/-- `catchSync(fn)`: runs `fn` through `trySync` with the internal
callback `(err) => { error = err }`, then branches on `if (error)`.
Since `E extends Error`, a stored error is an object and truthy, so the
test reads as `isSome`.  If the `trySync` call itself threw, that throw
would escape `catchSync`; the embedding keeps that path explicit (and we
prove it unreachable). -/
def catchSync {ε β : Type} (fn : SyncOutcome ε (Option β)) :
    SyncOutcome ε (CatchResult ε β) :=
  let r := trySyncSt fn (fun _ e => (some e, .ret ())) (none : Option ε)
  match r.1 with
  | .thrown e2 => .thrown e2
  | .ret value =>
    match r.2 with
    | some e => .ret ⟨none, some e, false⟩
    | none => .ret ⟨value, none, true⟩

/-- `tryCatchSync(fn)` from src/unnamed/part_001 lines 84-94: the same
delegation as `catchSync`, with the final branch written as
`error ? {value: null, error, ok: false} : {value, error: null, ok: true}`. -/
def tryCatchSync {ε β : Type} (fn : SyncOutcome ε (Option β)) :
    SyncOutcome ε (CatchResult ε β) :=
  let r := trySyncSt fn (fun _ e => (some e, .ret ())) (none : Option ε)
  match r.1 with
  | .thrown e2 => .thrown e2
  | .ret value =>
    match r.2 with
    | some e => .ret ⟨none, some e, false⟩
    | none => .ret ⟨value, none, true⟩

/-! ### The dual-mode wrappers of src/index.ts (first module) -/

/-- The options-object `_try` of src/index.ts lines 34-53, here named
`tryDual`.  `try { rtn = options.handler(); if (isPromise(rtn)) return
rtn.then(v => v, e => { options.onError?.(e); return null }); return rtn }
catch (e) { options.onError?.(e); return null }`.  The `isPromise`
dispatch on the returned value is modelled by the `HRet` sum; the
`onError` callback has type `(error: E) => void` and may throw. -/
def tryDual {ε β : Type} (handler : SyncOutcome ε (HRet ε β))
    (onError : Option (ε → SyncOutcome ε Unit)) :
    SyncOutcome ε (TryResult ε β) :=
  match handler with
  | .ret (.plain v) => .ret (.now v)
  | .ret (.prom p) =>
    match p with
    | .resolved v => .ret (.later (.resolved v))
    | .rejected e =>
      match onError with
      | none => .ret (.later (.resolved none))
      | some cb =>
        match cb e with
        | .ret _ => .ret (.later (.resolved none))
        | .thrown e2 => .ret (.later (.rejected e2))
  | .thrown e =>
    match onError with
    | none => .ret (.now none)
    | some cb =>
      match cb e with
      | .ret _ => .ret (.now none)
      | .thrown e2 => .thrown e2

/-- The arguments `tryDual` passes to `onError`, read off the same
control flow: once with the thrown error on the synchronous throw path,
once with the rejection error on the rejected-promise path. -/
def tryDualCalls {ε β : Type} (handler : SyncOutcome ε (HRet ε β))
    (onError : Option (ε → SyncOutcome ε Unit)) : List ε :=
  match handler with
  | .ret (.plain _) => []
  | .ret (.prom (.resolved _)) => []
  | .ret (.prom (.rejected e)) =>
    match onError with
    | none => []
    | some _ => [e]
  | .thrown e =>
    match onError with
    | none => []
    | some _ => [e]

/-- The handler-taking `_catch` of src/index.ts lines 79-97, here named
`catchDual`.  `try { result = handler(); if (isPromise(result)) return
result.then(v => ok-record, e => fail-record); return ok-record }
catch (err) { return fail-record }`. -/
def catchDual {ε β : Type} (handler : SyncOutcome ε (HRet ε β)) :
    CatchOut ε β :=
  match handler with
  | .ret (.plain v) => .now ⟨v, none, true⟩
  | .ret (.prom (.resolved v)) => .later (.resolved ⟨v, none, true⟩)
  | .ret (.prom (.rejected e)) => .later (.resolved ⟨none, some e, false⟩)
  | .thrown e => .now ⟨none, some e, false⟩

/-! ### The asynchronous nullable wrapper `tryAsync` (src/index.ts 264-276) -/

/-- The settled outcome of `await (typeof fn === "function" ? fn() : fn)`
inside the `try` block of `tryAsync`: a promise contributes its own
outcome; invoking a function may throw (caught, hence a rejection of the
enclosing async function body), return a plain value (awaiting it yields
the value), or return a promise. -/
def settle {ε β : Type} : AsyncHandler ε β → PromiseOutcome ε (Option β)
  | .prom p => p
  | .func (.thrown e) => .rejected e
  | .func (.ret (.plain v)) => .resolved v
  | .func (.ret (.prom p)) => p

/-- `tryAsync(fn, errorHandler?)`: `try { return await promise } catch
(err) { await errorHandler?.(err); return null }`.  The `await` of the
callback means a callback that throws or returns a rejecting promise
rejects the promise `tryAsync` returns. -/
def tryAsync {ε β : Type} (fn : AsyncHandler ε β)
    (errorHandler : Option (ε → CbOut ε)) :
    PromiseOutcome ε (Option β) :=
  match settle fn with
  | .resolved v => .resolved v
  | .rejected e =>
    match errorHandler with
    | none => .resolved none
    | some cb =>
      match cb e with
      | .retUnit => .resolved none
      | .retProm (.resolved _) => .resolved none
      | .retProm (.rejected e2) => .rejected e2
      | .thrown e2 => .rejected e2

/-- Events in one run of `tryAsync`, in execution order: the callback is
invoked, the `await` of the callback completes normally, the wrapper
executes its own `return` (producing its result). -/
inductive AEv (ε : Type) : Type
  | cbInvoked (e : ε)
  | cbSettled
  | produced
deriving Repr, DecidableEq

/-- The ordered event trace of `tryAsync`, read off the same control
flow.  On the error path `await errorHandler?.(err)` textually precedes
`return null`, so when the callback completes, `cbSettled` occurs
strictly before `produced`; when the callback throws or rejects, the
wrapper never reaches its `return` and no `produced` event occurs. -/
def tryAsyncEvents {ε β : Type} (fn : AsyncHandler ε β)
    (errorHandler : Option (ε → CbOut ε)) : List (AEv ε) :=
  match settle fn with
  | .resolved _ => [.produced]
  | .rejected e =>
    match errorHandler with
    | none => [.produced]
    | some cb =>
      match cb e with
      | .retUnit => [.cbInvoked e, .cbSettled, .produced]
      | .retProm (.resolved _) => [.cbInvoked e, .cbSettled, .produced]
      | .retProm (.rejected _) => [.cbInvoked e]
      | .thrown _ => [.cbInvoked e]

/-- Whether one callback invocation completes normally (returns, or
returns a promise that resolves). -/
def cbCompletes {ε : Type} : CbOut ε → Bool
  | .retUnit => true
  | .retProm (.resolved _) => true
  | .retProm (.rejected _) => false
  | .thrown _ => false

/-- `tryAsync` with a state-passing error callback, for embedding the
structured wrappers whose internal callback writes to a captured local
variable; same control flow as `tryAsync`. -/
def tryAsyncSt {ε β σ : Type} (fn : AsyncHandler ε β)
    (cb : σ → ε → σ × CbOut ε) (s : σ) :
    PromiseOutcome ε (Option β) × σ :=
  match settle fn with
  | .resolved v => (.resolved v, s)
  | .rejected e =>
    match cb s e with
    | (s2, .retUnit) => (.resolved none, s2)
    | (s2, .retProm (.resolved _)) => (.resolved none, s2)
    | (s2, .retProm (.rejected e2)) => (.rejected e2, s2)
    | (s2, .thrown e2) => (.rejected e2, s2)

/-! ### The asynchronous structured wrappers -/

/-- `catchAsync(fn)` (src/index.ts 306-317): awaits `tryAsync` with the
internal callback `(err) => { error = err }`, then branches on
`if (error)` (truthy iff stored, since `E extends Error`).  A rejection
of the awaited `tryAsync` call would reject `catchAsync` itself; the
embedding keeps that path explicit (and we prove it unreachable). -/
def catchAsync {ε β : Type} (fn : AsyncHandler ε β) :
    PromiseOutcome ε (CatchResult ε β) :=
  let r := tryAsyncSt fn (fun _ e => (some e, .retUnit)) (none : Option ε)
  match r.1 with
  | .rejected e2 => .rejected e2
  | .resolved value =>
    match r.2 with
    | some e => .resolved ⟨none, some e, false⟩
    | none => .resolved ⟨value, none, true⟩

/-- `tryCatch(fnHandler)` from src/unnamed/part_002 lines 70-85: awaits
the part_002 `_try` (textually identical to `tryAsync`) with the internal
storing callback, then returns `{ value, error, ok: !error }` — the
`value` field is whatever `_try` resolved to, not forced to null. -/
def tryCatch {ε β : Type} (fn : AsyncHandler ε β) :
    PromiseOutcome ε (CatchResult ε β) :=
  let r := tryAsyncSt fn (fun _ e => (some e, .retUnit)) (none : Option ε)
  match r.1 with
  | .rejected e2 => .rejected e2
  | .resolved value => .resolved ⟨value, r.2, r.2.isNone⟩

/-! ### The run-time selectors (src/index.ts 327-340 and 350-365) -/

/-- The value the selector `_try(runTime)` returns: one of the two
concrete nullable wrappers (they have different types, which the source
papers over with overloads). -/
inductive TryFn (ε β : Type) : Type
  | sync (f : SyncOutcome ε (Option β) → Option (ε → SyncOutcome ε Unit) →
      SyncOutcome ε (Option β))
  | async (f : AsyncHandler ε β → Option (ε → CbOut ε) →
      PromiseOutcome ε (Option β))

/-- The value the selector `_catch(runTime)` returns: one of the two
concrete structured wrappers. -/
inductive CatchFn (ε β : Type) : Type
  | sync (f : SyncOutcome ε (Option β) → SyncOutcome ε (CatchResult ε β))
  | async (f : AsyncHandler ε β → PromiseOutcome ε (CatchResult ε β))

/-- The selector `_try(runTime)` of src/index.ts lines 327-340, here
named `selectTry`: a switch on the tag returning the corresponding
wrapper function unapplied (no handler exists at selection time), and
throwing `Unsupported run time: ...` on any other tag.  The thrown error
is modelled by its message. -/
def selectTry (ε β : Type) (runTime : String) : Except String (TryFn ε β) :=
  if runTime = "sync" then .ok (.sync trySync)
  else if runTime = "async" then .ok (.async tryAsync)
  else .error ("Unsupported run time: " ++ runTime)

/-- The selector `_catch(runTime)` of src/index.ts lines 350-365, here
named `selectCatch`; same shape as `selectTry`. -/
def selectCatch (ε β : Type) (runTime : String) : Except String (CatchFn ε β) :=
  if runTime = "sync" then .ok (.sync catchSync)
  else if runTime = "async" then .ok (.async catchAsync)
  else .error ("Unsupported run time: " ++ runTime)

/-! ### Invariants of the structured result -/

/-- The invariant claimed by the specification: exactly one of `value`
and `error` is non-null, and `ok` is true iff `value` is non-null and
`error` is null. -/
def claimedInvariant {ε β : Type} (r : CatchResult ε β) : Bool :=
  (r.value.isSome != r.error.isSome) &&
    (r.ok == (r.value.isSome && r.error.isNone))

/-- The invariant the code actually maintains: `error` is non-null iff
`ok` is false, `value` is null whenever `ok` is false, and the claimed
invariant can only fail on the record `{value: null, error: null,
ok: true}` produced when a handler legitimately returns or resolves with
null. -/
def nearInvariant {ε β : Type} (r : CatchResult ε β) : Bool :=
  ((r.ok != r.error.isSome) && (r.ok || r.value.isNone)) &&
    (claimedInvariant r || (r.value.isNone && r.error.isNone && r.ok))

/-- Injection of a purely synchronous handler into the dual-mode handler
type: a normal return is a value not detected as a promise. -/
def syncToHRet {ε β : Type} : SyncOutcome ε (Option β) → SyncOutcome ε (HRet ε β)
  | .ret v => .ret (.plain v)
  | .thrown e => .thrown e

/-! ### Claim C1: the invariant of the structured result -/

/-- Claim C1 counterexample: for the handler `() => null` (which returns
normally with the null value), `catchSync` returns the record
`{value: null, error: null, ok: true}`, on which the claimed invariant
(exactly one of `value`/`error` non-null, and `ok` iff `value` non-null
and `error` null) is false: neither field is non-null. -/
theorem catch_invariant_null_value_cex :
    catchSync (ε := Unit) (β := Unit) (.ret none) =
      .ret { value := none, error := none, ok := true } ∧
    claimedInvariant
      ({ value := none, error := none, ok := true } : CatchResult Unit Unit) =
      false :=
  ⟨rfl, rfl⟩

/-- Claim C1 (amended): for every handler, every structured wrapper
(`catchSync`, the part_001 `tryCatchSync`, the dual-mode `_catch` of
index.ts, `catchAsync`, the part_002 `tryCatch`) returns a record in
which `error` is non-null iff `ok` is false and `value` is null whenever
`ok` is false; exactly one of `value`/`error` is non-null and `ok` is
true iff `value` is non-null and `error` is null, except when the handler
legitimately returns or resolves with null, in which case the record is
`{value: null, error: null, ok: true}`. -/
theorem catch_invariant_amended (ε β : Type) (fn : SyncOutcome ε (Option β))
    (fnD : SyncOutcome ε (HRet ε β)) (fnA : AsyncHandler ε β) :
    (∃ r, catchSync fn = .ret r ∧ nearInvariant r = true) ∧
    (∃ r, tryCatchSync fn = .ret r ∧ nearInvariant r = true) ∧
    ((∃ r, catchDual fnD = .now r ∧ nearInvariant r = true) ∨
      (∃ r, catchDual fnD = .later (.resolved r) ∧ nearInvariant r = true)) ∧
    (∃ r, catchAsync fnA = .resolved r ∧ nearInvariant r = true) ∧
    (∃ r, tryCatch fnA = .resolved r ∧ nearInvariant r = true) := by
  refine ⟨?_, ?_, ?_, ?_, ?_⟩
  · match fn with
    | .thrown e => exact ⟨⟨none, some e, false⟩, rfl, rfl⟩
    | .ret none => exact ⟨⟨none, none, true⟩, rfl, rfl⟩
    | .ret (some a) => exact ⟨⟨some a, none, true⟩, rfl, rfl⟩
  · match fn with
    | .thrown e => exact ⟨⟨none, some e, false⟩, rfl, rfl⟩
    | .ret none => exact ⟨⟨none, none, true⟩, rfl, rfl⟩
    | .ret (some a) => exact ⟨⟨some a, none, true⟩, rfl, rfl⟩
  · match fnD with
    | .thrown e => exact Or.inl ⟨⟨none, some e, false⟩, rfl, rfl⟩
    | .ret (.plain none) => exact Or.inl ⟨⟨none, none, true⟩, rfl, rfl⟩
    | .ret (.plain (some a)) => exact Or.inl ⟨⟨some a, none, true⟩, rfl, rfl⟩
    | .ret (.prom (.resolved none)) => exact Or.inr ⟨⟨none, none, true⟩, rfl, rfl⟩
    | .ret (.prom (.resolved (some a))) =>
      exact Or.inr ⟨⟨some a, none, true⟩, rfl, rfl⟩
    | .ret (.prom (.rejected e)) => exact Or.inr ⟨⟨none, some e, false⟩, rfl, rfl⟩
  · match fnA with
    | .prom (.resolved none) => exact ⟨⟨none, none, true⟩, rfl, rfl⟩
    | .prom (.resolved (some a)) => exact ⟨⟨some a, none, true⟩, rfl, rfl⟩
    | .prom (.rejected e) => exact ⟨⟨none, some e, false⟩, rfl, rfl⟩
    | .func (.thrown e) => exact ⟨⟨none, some e, false⟩, rfl, rfl⟩
    | .func (.ret (.plain none)) => exact ⟨⟨none, none, true⟩, rfl, rfl⟩
    | .func (.ret (.plain (some a))) => exact ⟨⟨some a, none, true⟩, rfl, rfl⟩
    | .func (.ret (.prom (.resolved none))) => exact ⟨⟨none, none, true⟩, rfl, rfl⟩
    | .func (.ret (.prom (.resolved (some a)))) =>
      exact ⟨⟨some a, none, true⟩, rfl, rfl⟩
    | .func (.ret (.prom (.rejected e))) => exact ⟨⟨none, some e, false⟩, rfl, rfl⟩
  · match fnA with
    | .prom (.resolved none) => exact ⟨⟨none, none, true⟩, rfl, rfl⟩
    | .prom (.resolved (some a)) => exact ⟨⟨some a, none, true⟩, rfl, rfl⟩
    | .prom (.rejected e) => exact ⟨⟨none, some e, false⟩, rfl, rfl⟩
    | .func (.thrown e) => exact ⟨⟨none, some e, false⟩, rfl, rfl⟩
    | .func (.ret (.plain none)) => exact ⟨⟨none, none, true⟩, rfl, rfl⟩
    | .func (.ret (.plain (some a))) => exact ⟨⟨some a, none, true⟩, rfl, rfl⟩
    | .func (.ret (.prom (.resolved none))) => exact ⟨⟨none, none, true⟩, rfl, rfl⟩
    | .func (.ret (.prom (.resolved (some a)))) =>
      exact ⟨⟨some a, none, true⟩, rfl, rfl⟩
    | .func (.ret (.prom (.rejected e))) => exact ⟨⟨none, some e, false⟩, rfl, rfl⟩

/-! ### Claims C2, C3, C5: the synchronous paths -/

/-- Claim C2: for every handler that returns normally with value `v`,
`trySync` returns exactly `v` (whatever the optional callback, which is
never reached) and `catchSync` returns `{value: v, error: null,
ok: true}`. -/
theorem sync_success_values (ε β : Type) (v : Option β)
    (cb : Option (ε → SyncOutcome ε Unit)) :
    trySync (.ret v) cb = .ret v ∧
    catchSync (ε := ε) (β := β) (.ret v) = .ret ⟨v, none, true⟩ :=
  ⟨rfl, rfl⟩

/-- Claim C3: for every handler that raises an error `e` and every error
callback that returns normally when invoked with `e`, `trySync` returns
the null sentinel having invoked the callback exactly once with argument
`e`, `catchSync` returns `{value: null, error: e, ok: false}`, and so
does the dual-mode `_catch` on its synchronous path.  (The case of a
callback that itself throws is the documented exception settled by claim
C5.) -/
theorem sync_error_path_records (ε β : Type) (e : ε)
    (f : ε → SyncOutcome ε Unit) (h : f e = .ret ()) :
    trySync (ε := ε) (β := β) (.thrown e) (some f) = .ret none ∧
    trySyncCalls (ε := ε) (β := β) (.thrown e) (some f) = [e] ∧
    catchSync (ε := ε) (β := β) (.thrown e) = .ret ⟨none, some e, false⟩ ∧
    catchDual (ε := ε) (β := β) (.thrown e) = .now ⟨none, some e, false⟩ := by
  refine ⟨?_, rfl, rfl, rfl⟩
  simp [trySync, h]

/-- Witness for claim C3 at the concrete handler throwing `()` and the
callback that returns normally. -/
theorem sync_error_path_records_witness :
    trySync (ε := Unit) (β := Unit) (.thrown ()) (some fun _ => .ret ()) =
      .ret none ∧
    trySyncCalls (ε := Unit) (β := Unit) (.thrown ()) (some fun _ => .ret ()) =
      [()] ∧
    catchSync (ε := Unit) (β := Unit) (.thrown ()) = .ret ⟨none, some (), false⟩ ∧
    catchDual (ε := Unit) (β := Unit) (.thrown ()) = .now ⟨none, some (), false⟩ :=
  sync_error_path_records Unit Unit () (fun _ => .ret ()) rfl

/-- Claim C5: for every handler that raises synchronously and every error
callback that itself raises when invoked with the captured error, the
synchronous nullable wrappers (`trySync`, and the options-object `_try`
on its synchronous path) do not catch the callback error: it propagates
to the caller of the wrapper instead of being normalized to the null
sentinel. -/
theorem sync_callback_error_propagates (ε β : Type) (e e2 : ε)
    (f : ε → SyncOutcome ε Unit) (h : f e = .thrown e2) :
    trySync (ε := ε) (β := β) (.thrown e) (some f) = .thrown e2 ∧
    tryDual (ε := ε) (β := β) (.thrown e) (some f) = .thrown e2 := by
  constructor
  · simp [trySync, h]
  · simp [tryDual, h]

/-- Witness for claim C5 at a concrete throwing handler and a concrete
throwing callback. -/
theorem sync_callback_error_propagates_witness :
    trySync (ε := Unit) (β := Unit) (.thrown ()) (some fun _ => .thrown ()) =
      .thrown () ∧
    tryDual (ε := Unit) (β := Unit) (.thrown ()) (some fun _ => .thrown ()) =
      .thrown () :=
  sync_callback_error_propagates Unit Unit () () (fun _ => .thrown ()) rfl

/-! ### Claim C4: ordering in the asynchronous error path -/

/-- Claim C4: in the asynchronous path of the nullable wrapper, when the
handler settles by rejection with `e` and an error callback is present,
the callback is invoked with `e` and — if it returns a deferred value —
awaited to completion strictly before the null sentinel is produced:
the event trace of `tryAsync` is exactly invocation, then completion of
the awaited callback, then production of the resolved-null result.  For
the options-object `_try` of index.ts (whose callback is typed to return
void), the callback is likewise invoked before the wrapper resolves to
null. -/
theorem async_callback_awaited_before_result (ε β : Type)
    (fn : AsyncHandler ε β) (e : ε) (f : ε → CbOut ε)
    (g : ε → SyncOutcome ε Unit) (hfn : settle fn = .rejected e)
    (hf : cbCompletes (f e) = true) (hg : g e = .ret ()) :
    tryAsync fn (some f) = .resolved none ∧
    tryAsyncEvents fn (some f) = [.cbInvoked e, .cbSettled, .produced] ∧
    tryDual (ε := ε) (β := β) (.ret (.prom (.rejected e))) (some g) =
      .ret (.later (.resolved none)) ∧
    tryDualCalls (ε := ε) (β := β) (.ret (.prom (.rejected e))) (some g) =
      [e] := by
  refine ⟨?_, ?_, ?_, rfl⟩
  · cases hfe : f e with
    | retUnit => simp [tryAsync, hfn, hfe]
    | retProm p =>
      cases p with
      | resolved u => simp [tryAsync, hfn, hfe]
      | rejected e2 => rw [hfe] at hf; simp [cbCompletes] at hf
    | thrown e2 => rw [hfe] at hf; simp [cbCompletes] at hf
  · cases hfe : f e with
    | retUnit => simp [tryAsyncEvents, hfn, hfe]
    | retProm p =>
      cases p with
      | resolved u => simp [tryAsyncEvents, hfn, hfe]
      | rejected e2 => rw [hfe] at hf; simp [cbCompletes] at hf
    | thrown e2 => rw [hfe] at hf; simp [cbCompletes] at hf
  · simp [tryDual, hg]

/-- Witness for claim C4 at the concrete rejected-promise handler with a
callback returning a resolving promise, and a void callback for the
dual-mode wrapper. -/
theorem async_callback_awaited_before_result_witness :
    tryAsync (ε := Unit) (β := Unit) (.prom (.rejected ()))
      (some fun _ => .retProm (.resolved ())) = .resolved none ∧
    tryAsyncEvents (ε := Unit) (β := Unit) (.prom (.rejected ()))
      (some fun _ => .retProm (.resolved ())) =
      [.cbInvoked (), .cbSettled, .produced] ∧
    tryDual (ε := Unit) (β := Unit) (.ret (.prom (.rejected ())))
      (some fun _ => .ret ()) = .ret (.later (.resolved none)) ∧
    tryDualCalls (ε := Unit) (β := Unit) (.ret (.prom (.rejected ())))
      (some fun _ => .ret ()) = [()] :=
  async_callback_awaited_before_result Unit Unit (.prom (.rejected ())) ()
    (fun _ => .retProm (.resolved ())) (fun _ => .ret ()) rfl rfl rfl

/-! ### Claim C6: mode transparency of the dual-mode wrappers -/

/-- Claim C6: for the auto-detecting wrappers (`_try` with options object
and the handler-taking `_catch`), a handler returning a value not
detected as a promise yields an immediately available result (`now`),
while a handler returning a promise yields a deferred result (`later`)
whose settlement is determined by the settlement of the inner promise:
resolution with `v` maps to resolution with `v` (respectively with the
success record), rejection maps to the null/failure outcome. -/
theorem dual_mode_transparency (ε β : Type) (v : Option β)
    (p : PromiseOutcome ε (Option β)) (cb : Option (ε → SyncOutcome ε Unit))
    (e : ε) :
    tryDual (.ret (.plain v)) cb = .ret (.now v) ∧
    (∃ q, tryDual (.ret (.prom p)) cb = .ret (.later q)) ∧
    tryDual (.ret (.prom (.resolved v))) cb = .ret (.later (.resolved v)) ∧
    catchDual (ε := ε) (β := β) (.ret (.plain v)) = .now ⟨v, none, true⟩ ∧
    (∃ q, catchDual (ε := ε) (β := β) (.ret (.prom p)) = .later q) ∧
    catchDual (ε := ε) (β := β) (.ret (.prom (.resolved v))) =
      .later (.resolved ⟨v, none, true⟩) ∧
    catchDual (ε := ε) (β := β) (.ret (.prom (.rejected e))) =
      .later (.resolved ⟨none, some e, false⟩) := by
  refine ⟨rfl, ?_, rfl, rfl, ?_, rfl, rfl⟩
  · cases p with
    | resolved w => exact ⟨.resolved w, rfl⟩
    | rejected er =>
      cases cb with
      | none => exact ⟨.resolved none, rfl⟩
      | some f =>
        cases hf : f er with
        | ret u => exact ⟨.resolved none, by simp [tryDual, hf]⟩
        | thrown e2 => exact ⟨.rejected e2, by simp [tryDual, hf]⟩
  · cases p with
    | resolved w => exact ⟨.resolved ⟨w, none, true⟩, rfl⟩
    | rejected er => exact ⟨.resolved ⟨none, some er, false⟩, rfl⟩

/-! ### Claim C7: the promise detector -/

/-- Claim C7: `isPromise` returns true iff the value is truthy, of object
or function kind, and has a callable member named `then`; in particular
it returns false for null, undefined, numbers, strings, booleans and
records without a callable `then`, and true for a record whose `then` is
a function.  It never raises: it is a total boolean-valued function by
construction, as the conjunction in the source short-circuits before any
property access on a nullish value. -/
theorem isPromise_characterization (v : JSVal) (n : Int) (s : String)
    (b : Bool) (l : List (String × JSVal))
    (h : typeofV (plook l "then") ≠ "function") :
    (isPromise v = true ↔
      (truthy v = true ∧
        (typeofV v = "object" ∨ typeofV v = "function") ∧
        typeofV (getProp v "then") = "function")) ∧
    isPromise .jsNull = false ∧
    isPromise .jsUndefined = false ∧
    isPromise (.number n) = false ∧
    isPromise (.str s) = false ∧
    isPromise (.boolean b) = false ∧
    isPromise (.obj l) = false ∧
    isPromise (.obj [("then", .fn [])]) = true := by
  refine ⟨?_, rfl, rfl, ?_, ?_, ?_, ?_, rfl⟩
  · simp [isPromise, Bool.and_eq_true, Bool.or_eq_true, beq_iff_eq, and_assoc]
  · simp [isPromise, truthy, typeofV, getProp]
  · simp [isPromise, truthy, typeofV, getProp]
  · cases b <;> rfl
  · exact beq_eq_false_iff_ne.mpr h

/-- Witness for claim C7 at concrete values, including a record whose
`then` member is a number and hence not callable. -/
theorem isPromise_characterization_witness :
    (isPromise (.obj [("then", .fn [])]) = true ↔
      (truthy (.obj [("then", .fn [])]) = true ∧
        (typeofV (.obj [("then", .fn [])]) = "object" ∨
          typeofV (.obj [("then", .fn [])]) = "function") ∧
        typeofV (getProp (.obj [("then", .fn [])]) "then") = "function")) ∧
    isPromise .jsNull = false ∧
    isPromise .jsUndefined = false ∧
    isPromise (.number 0) = false ∧
    isPromise (.str "then") = false ∧
    isPromise (.boolean true) = false ∧
    isPromise (.obj [("then", .number 1)]) = false ∧
    isPromise (.obj [("then", .fn [])]) = true :=
  isPromise_characterization (.obj [("then", .fn [])]) 0 "then" true
    [("then", .number 1)] (by decide)

/-! ### Claim C8: the run-time selectors -/

/-- Claim C8: the selectors return the corresponding concrete wrapper for
the tags `sync` and `async` — the function itself, unapplied, so no
handler is invoked at selection time — and raise the unsupported-mode
error synchronously for every other tag. -/
theorem selector_dispatch (ε β : Type) (s : String) (h1 : s ≠ "sync")
    (h2 : s ≠ "async") :
    selectTry ε β "sync" = .ok (.sync trySync) ∧
    selectTry ε β "async" = .ok (.async tryAsync) ∧
    selectCatch ε β "sync" = .ok (.sync catchSync) ∧
    selectCatch ε β "async" = .ok (.async catchAsync) ∧
    selectTry ε β s = .error ("Unsupported run time: " ++ s) ∧
    selectCatch ε β s = .error ("Unsupported run time: " ++ s) := by
  refine ⟨?_, ?_, ?_, ?_, ?_, ?_⟩
  · rw [selectTry, if_pos rfl]
  · rw [selectTry, if_neg (by decide), if_pos rfl]
  · rw [selectCatch, if_pos rfl]
  · rw [selectCatch, if_neg (by decide), if_pos rfl]
  · rw [selectTry, if_neg h1, if_neg h2]
  · rw [selectCatch, if_neg h1, if_neg h2]

/-- Witness for claim C8 at the concrete unsupported tag `bogus`. -/
theorem selector_dispatch_witness :
    selectTry Unit Unit "sync" = .ok (.sync trySync) ∧
    selectTry Unit Unit "async" = .ok (.async tryAsync) ∧
    selectCatch Unit Unit "sync" = .ok (.sync catchSync) ∧
    selectCatch Unit Unit "async" = .ok (.async catchAsync) ∧
    selectTry Unit Unit "bogus" = .error ("Unsupported run time: " ++ "bogus") ∧
    selectCatch Unit Unit "bogus" =
      .error ("Unsupported run time: " ++ "bogus") :=
  selector_dispatch Unit Unit "bogus" (by decide) (by decide)

/-! ### Claim C9: the delegating and the direct structured wrapper agree -/

/-- Claim C9: for every synchronous handler, `catchSync` — which runs the
handler through `trySync` with an internal error-capturing callback —
returns the same record, immediately and without throwing, as the
dual-mode `_catch` of index.ts, which wraps the handler in a direct
try/catch. -/
theorem catchSync_refines_catchDual (ε β : Type)
    (fn : SyncOutcome ε (Option β)) :
    ∃ r, catchSync fn = .ret r ∧ catchDual (syncToHRet fn) = .now r := by
  match fn with
  | .ret v => exact ⟨⟨v, none, true⟩, rfl, rfl⟩
  | .thrown e => exact ⟨⟨none, some e, false⟩, rfl, rfl⟩

/-! ### Claim C10: the asynchronous structured wrappers never reject -/

/-- Claim C10: for every handler, including one that raises or rejects,
the promise returned by `catchAsync` (and by the part_002 `tryCatch`)
always resolves and never rejects: the internal error callback only
stores the captured error and can neither raise nor reject, so the
rejection paths of the underlying nullable wrapper are unreachable. -/
theorem structured_async_never_rejects (ε β : Type) (fn : AsyncHandler ε β) :
    (∃ r, catchAsync fn = .resolved r) ∧ (∃ r, tryCatch fn = .resolved r) := by
  constructor
  · cases hs : settle fn with
    | resolved v => exact ⟨⟨v, none, true⟩, by simp [catchAsync, tryAsyncSt, hs]⟩
    | rejected e =>
      exact ⟨⟨none, some e, false⟩, by simp [catchAsync, tryAsyncSt, hs]⟩
  · cases hs : settle fn with
    | resolved v => exact ⟨⟨v, none, true⟩, by simp [tryCatch, tryAsyncSt, hs]⟩
    | rejected e =>
      exact ⟨⟨none, some e, false⟩, by simp [tryCatch, tryAsyncSt, hs]⟩

end SoftError
